import Mathlib

/-!
# Distributed game server: chunk-ownership protocol, verified claims

Shallow embedding of the Go sources of the distributed voxel game server:
the central coordinator (`central_server.go`: `handleJoin`, `handlePeerChunk`,
`handleSentChunk`, `randomServer`) and the game server's UDP request handlers
(`handleGetData`, `handleCentralPeerReq`, `handleMergeChunk`, `handleAddCube`,
`handleDltCube`, `deleteFromList`).

Go maps are embedded as functions into `Option`; a Go map assignment is the
pointwise update `upd`.  Go zero values of the record types are spelled out
(`Chunk.zero` and friends) because several handlers read a missing key with
`chunk, _ := zone_map[chunk_id]`, which in Go yields the zero value.  Network
effects (UDP sends of `MERGE` requests) are returned as an explicit list of
`(destination, request)` pairs; replies read from the network (the owner's
answer to `FROM_CENTRAL`, the central's answer to `GET_CHUNK`) enter the
handlers as explicit parameters, since the handlers' control flow branches on
the decoded value only.
-/

/-- Chunk coordinates, `type ChunkID struct { IDX, IDY int }`. -/
structure ChunkID where
  idx : Int
  idy : Int
deriving DecidableEq, Repr

/-- A voxel, `type Cube struct { ID string; X, Z, Height int; Color string }`. -/
structure Cube where
  id : String
  x : Int
  z : Int
  height : Int
  color : String
deriving DecidableEq, Repr

/-- Go zero value of `Cube`. -/
def Cube.zero : Cube := ⟨"", 0, 0, 0, ""⟩

/-- `type Player struct { ID string; PosX, PosY int; ServerIP string; AOIRadius int; ChunkID ChunkID }`. -/
structure Player where
  id : String
  posX : Int
  posY : Int
  serverIP : String
  aoiRadius : Int
  chunkID : ChunkID
deriving DecidableEq, Repr

/-- Go zero value of `Player`. -/
def Player.zero : Player := ⟨"", 0, 0, "", 0, ⟨0, 0⟩⟩

/-- `type Chunk struct { IDX, IDY int; ServerIP, Data string; PlayerList []Player; IsDirty bool; Cells []Cube }`. -/
structure Chunk where
  idx : Int
  idy : Int
  serverIP : String
  data : String
  playerList : List Player
  isDirty : Bool
  cells : List Cube
deriving DecidableEq, Repr

/-- Go zero value of `Chunk`: what `chunk, _ := zone_map[chunk_id]` yields on a miss. -/
def Chunk.zero : Chunk := ⟨0, 0, "", "", [], false, []⟩

/-- `type GameData struct { Chunk Chunk }`. -/
structure GameData where
  chunk : Chunk
deriving DecidableEq, Repr

/-- Go zero value of `GameData`. -/
def GameData.zero : GameData := ⟨Chunk.zero⟩

/-- The wire `Request` envelope (all UDP payloads and the central's bodies). -/
structure Request where
  type : String
  chunkID : ChunkID
  callerIP : String
  player : Player
  isPeerReq : Bool
  chunk : Chunk
  isChunkNew : Bool
  playerCount : Int
  playerID : String
  cube : Cube
  cubeID : String
deriving DecidableEq, Repr

/-- Go zero value of `Request`: the base of every struct literal that names
only some fields. -/
def Request.zero : Request :=
  ⟨"", ⟨0, 0⟩, "", Player.zero, false, Chunk.zero, false, 0, "", Cube.zero, ""⟩

/-- The wire `Response` envelope. -/
structure Response where
  success : Bool
  chunk : Chunk
  message : String
  gameData : GameData
  newIP : String
  playerCount : Int
deriving DecidableEq, Repr

/-- Go zero value of `Response`. -/
def Response.zero : Response := ⟨false, Chunk.zero, "", GameData.zero, "", 0⟩

/-- `type PlayerJoinRequest struct { PlayerID string; PosX, PosY int }`. -/
structure PlayerJoinRequest where
  playerID : String
  posX : Int
  posY : Int
deriving DecidableEq, Repr

/-- A Go map assignment `m[k] = v` on a map embedded as `α → Option β`. -/
def upd {α : Type} [DecidableEq α] {β : Type} (m : α → Option β) (k : α) (v : β) :
    α → Option β :=
  fun k' => if k' = k then some v else m k'

/-! ## Central coordinator (`central_server.go`) -/

/-- The central registry `zone : map[ChunkID]string` (chunk to owner IP). -/
abbrev Zone := ChunkID → Option String

/-- `serversList` from `central_server.go`. -/
def serversList : List String :=
  ["172.16.118.72:9000", "172.16.118.120:9000", "172.16.118.112:9000"]

/-- `randomServer` from `central_server.go`: despite the name, a deterministic
selection by player id (`"1"` picks the first entry, `"2"` the second,
anything else the third). -/
def randomServer (id : String) : String :=
  let key : Nat := if id = "1" then 1 else if id = "2" then 2 else 3
  serversList.getD (key - 1) ""

/-- `handleJoin`: decode `PlayerJoinRequest`, reply
`Response{Success: true, Message: randomServer(player_id)}`.  It neither reads
nor writes the registry. -/
def handleJoin (req : PlayerJoinRequest) : Response :=
  { Response.zero with success := true, message := randomServer req.playerID }

/-- What one `/peer_chunk` exchange with the registered owner produced:
the UDP dial failed (`handlePeerChunk` answers HTTP 500), the read or the
decode of the owner's answer failed (the degraded fallback path), or the
owner's decoded `Response`. -/
inductive PeerOutcome where
  | dialError
  | readError
  | ok (res : Response)
deriving DecidableEq

/-- A central HTTP handler's observable result: an error status line, or an
encoded JSON `Response`. -/
inductive CentralResult where
  | httpError (code : Nat)
  | reply (res : Response)
deriving DecidableEq

/-- `handlePeerChunk` from `central_server.go` (routes `/chunk` and
`/peer_chunk`), from the point where the request is decoded.  Registry misses
install the caller and answer `{Success: false}`; otherwise the owner is
consulted (`peer` holds that exchange's outcome) and the registry is rewritten
to the caller exactly on the paths the source rewrites it. -/
def handlePeerChunk (zone : Zone) (req : Request) (peer : PeerOutcome) :
    Zone × CentralResult :=
  if req.callerIP = "" then
    (zone, .httpError 400)
  else
    match zone req.chunkID with
    | none =>
        (upd zone req.chunkID req.callerIP, .reply { Response.zero with success := false })
    | some owner =>
        match peer with
        | .dialError => (zone, .httpError 500)
        | .readError =>
            if req.playerCount > 0 then
              (upd zone req.chunkID req.callerIP,
               .reply { Response.zero with
                          success := true, message := req.callerIP, newIP := req.callerIP })
            else
              (zone,
               .reply { Response.zero with
                          success := true, message := owner, newIP := owner })
        | .ok res =>
            if res.playerCount < req.playerCount then
              (upd zone req.chunkID req.callerIP,
               .reply { Response.zero with
                          success := true, message := req.callerIP, newIP := req.callerIP,
                          chunk := res.chunk })
            else
              (zone,
               .reply { Response.zero with
                          success := true, message := owner, newIP := owner })

/-- `handleSentChunk` from `central_server.go` (route `/sentchunk`):
`zone[req.ChunkID] = req.CallerIP`, no reply body. -/
def handleSentChunk (zone : Zone) (req : Request) : Zone :=
  upd zone req.chunkID req.callerIP

/-- One decoded request reaching a registered central route (`/join`,
`/chunk` a.k.a. `/peer_chunk`, `/sentchunk`), with the peer exchange's
outcome attached to a peer-chunk call. -/
inductive CentralCall where
  | join (req : PlayerJoinRequest)
  | peerChunk (req : Request) (peer : PeerOutcome)
  | sentChunk (req : Request)
deriving DecidableEq

/-- The calling server's IP carried by a central call (a `/join` body has
none). -/
def CentralCall.callerIP : CentralCall → String
  | .join _ => ""
  | .peerChunk req _ => req.callerIP
  | .sentChunk req => req.callerIP

/-- Whether the call is a `PEER_CHUNK` lookup (`/chunk` or `/peer_chunk`). -/
def CentralCall.isPeerChunk : CentralCall → Bool
  | .peerChunk _ _ => true
  | _ => false

/-- Whether the call is a `/sentchunk` notification. -/
def CentralCall.isSentChunk : CentralCall → Bool
  | .sentChunk _ => true
  | _ => false

/-- The central registry after one call: `handleJoin` never touches `zone`,
the other two handlers update it as embedded above. -/
def centralStep (zone : Zone) : CentralCall → Zone
  | .join _ => zone
  | .peerChunk req peer => (handlePeerChunk zone req peer).1
  | .sentChunk req => handleSentChunk zone req

/-! ## Game server (the UDP request handlers) -/

/-- The game server's chunk store `zone_map : map[ChunkID]Chunk`. -/
abbrev ZoneMap := ChunkID → Option Chunk

/-- This game server's own endpoint, the global `serverIP`. -/
def serverIP : String := "172.16.118.72:9000"

/-- The game server's mutable globals: `zone_map`, `players`, `player_map`. -/
structure ServerState where
  zoneMap : ZoneMap
  players : String → Option ChunkID
  playerMap : String → Option Player

/-- A UDP datagram the handler sends out: destination endpoint and request. -/
abbrev Msg := String × Request

/-- `deleteFromList`: `s[idx] = s[len(s)-1]; return s[:len(s)-1]` — copy the
last element over the removed slot, then drop the last slot. -/
def deleteFromList (s : List Cube) (idx : Nat) : List Cube :=
  (s.set idx (s.getD (s.length - 1) Cube.zero)).take (s.length - 1)

/-- The index the `for cell_no, cell := range chunk.Cells` loop of
`handleDltCube` breaks at: the first index whose `cell.ID` equals the target,
if any. -/
def firstMatchIdx (cells : List Cube) (target : String) : Option Nat :=
  match cells with
  | [] => none
  | c :: rest =>
      if c.id = target then some 0 else (firstMatchIdx rest target).map (· + 1)

/-- `handleDltCube`: read the chunk (zero value on a miss), swap-remove the
first cube whose id matches `req.CubeID` (no change when none matches), set
`IsDirty`, store back, reply `{Success: true, Message: "Deleted Cube"}`. -/
def handleDltCube (zm : ZoneMap) (req : Request) : ZoneMap × Response :=
  let chunk := (zm req.chunkID).getD Chunk.zero
  let cells :=
    match firstMatchIdx chunk.cells req.cubeID with
    | some i => deleteFromList chunk.cells i
    | none => chunk.cells
  let chunk := { chunk with cells := cells, isDirty := true }
  (upd zm req.chunkID chunk,
   { Response.zero with success := true, message := "Deleted Cube" })

/-- `handleAddCube`: read the chunk (zero value on a miss), append `req.Cube`
to `Cells`, set `IsDirty`, store back, reply
`{Success: true, Message: "Added Cube"}`. -/
def handleAddCube (zm : ZoneMap) (req : Request) : ZoneMap × Response :=
  let chunk := (zm req.chunkID).getD Chunk.zero
  let chunk := { chunk with cells := chunk.cells ++ [req.cube], isDirty := true }
  (upd zm req.chunkID chunk,
   { Response.zero with success := true, message := "Added Cube" })

/-- `handleMergeChunk`: install the incoming chunk when the id is absent,
otherwise append the incoming `PlayerList` entries (one `append` per loop
iteration, i.e. list concatenation) to the local chunk and store it back. -/
def handleMergeChunk (zm : ZoneMap) (req : Request) : ZoneMap × Response :=
  let res : Response := { Response.zero with success := true, message := "Merged Chunk" }
  match zm req.chunkID with
  | none => (upd zm req.chunkID req.chunk, res)
  | some chunk =>
      (upd zm req.chunkID { chunk with playerList := chunk.playerList ++ req.chunk.playerList },
       res)

/-- `handleCentralPeerReq` (the `FROM_CENTRAL` handler): read the chunk (zero
value on a miss); if `caller_player_count >= len(chunk.PlayerList)` yield:
set the chunk's `ServerIP` to the caller and mark it dirty (the source's
`for _, player := range chunk.PlayerList` loop assigns to a per-iteration
copy of each element, so `PlayerList` itself is left as it was), store the
chunk back, send a `MERGE` carrying it to the caller, and reply with the
chunk and `PlayerCount = my_player_count`; otherwise reply with the chunk
and `PlayerCount` and change nothing. -/
def handleCentralPeerReq (zm : ZoneMap) (req : Request) :
    ZoneMap × Response × List Msg :=
  let chunk := (zm req.chunkID).getD Chunk.zero
  let my_player_count : Int := chunk.playerList.length
  if req.playerCount ≥ my_player_count then
    let chunk := { chunk with serverIP := req.callerIP, isDirty := true }
    (upd zm req.chunkID chunk,
     { Response.zero with success := true, chunk := chunk, playerCount := my_player_count },
     [(req.callerIP,
       { Request.zero with type := "MERGE", chunkID := req.chunkID, chunk := chunk })])
  else
    (zm,
     { Response.zero with success := true, playerCount := my_player_count, chunk := chunk },
     [])

/-- `handleGetData`.  The central's decoded answer to the `GET_CHUNK` HTTP
call enters as `central` (the handler only branches on the decoded value;
the call itself is made exactly when the first guard fails).  The source ends
the central path with `zone_map[chunk_id] = res.Chunk`, which runs in all
four owner branches — including the two that put no chunk in `res`, where it
stores the zero-valued `Chunk`.  The player-rewrite loop
`for _, player := range val.PlayerList` assigns to per-iteration copies and
leaves the list unchanged. -/
def handleGetData (st : ServerState) (req : Request) (central : Response) :
    ServerState × Response × List Msg :=
  let chunk_id := req.chunkID
  let player := req.player
  let player_id := player.id
  let lookup := st.zoneMap chunk_id
  let val := lookup.getD Chunk.zero
  let ok := lookup.isSome
  if ok ∧ val.serverIP = serverIP then
    ({ st with players := upd st.players player_id chunk_id },
     { Response.zero with success := true, chunk := val, message := serverIP },
     [])
  else if central.success = false then
    let new_chunk : Chunk :=
      { idx := chunk_id.idx, idy := chunk_id.idy, serverIP := serverIP,
        data := "new chunk", playerList := [player], isDirty := false, cells := [] }
    ({ st with
        zoneMap := upd st.zoneMap chunk_id new_chunk,
        players := upd st.players player_id chunk_id,
        playerMap := upd st.playerMap player_id player },
     { Response.zero with success := true, chunk := new_chunk, message := serverIP },
     [])
  else
    let owner := central.message
    if ok ∧ owner ≠ serverIP then
      let val := { val with serverIP := owner, isDirty := true }
      let zm1 := upd st.zoneMap chunk_id val
      let res : Response := { Response.zero with success := true, message := owner }
      ({ st with zoneMap := upd zm1 chunk_id res.chunk },
       res,
       [(owner, { Request.zero with type := "MERGE", chunkID := chunk_id, chunk := val })])
    else if ¬ ok ∧ owner ≠ serverIP then
      let temp_chunk : Chunk := { Chunk.zero with playerList := [player] }
      let res : Response := { Response.zero with success := true, message := owner }
      ({ st with zoneMap := upd st.zoneMap chunk_id res.chunk },
       res,
       [(owner, { Request.zero with type := "MERGE", chunkID := chunk_id, chunk := temp_chunk })])
    else if ok then
      let updated_chunk := (st.zoneMap chunk_id).getD Chunk.zero
      let res : Response :=
        { Response.zero with success := true, chunk := updated_chunk, message := owner }
      ({ st with zoneMap := upd st.zoneMap chunk_id res.chunk }, res, [])
    else
      let updated_chunk :=
        { central.chunk with playerList := central.chunk.playerList ++ [player] }
      let res : Response :=
        { Response.zero with success := true, chunk := updated_chunk, message := owner }
      ({ st with zoneMap := upd st.zoneMap chunk_id res.chunk }, res, [])

/-! ## Concrete inputs for witnesses and counterexamples -/

/-- The chunk id the concrete scenarios use. -/
def cid0 : ChunkID := ⟨0, 0⟩

/-- An empty central registry. -/
def zoneEmpty : Zone := fun _ => none

/-- An empty game-server chunk store. -/
def zmEmpty : ZoneMap := fun _ => none

/-- C1 scenario: `cid0` is owned by the second configured server. -/
def zoneC1 : Zone := upd zoneEmpty cid0 "172.16.118.120:9000"

/-- C1 scenario: the third server asks for `cid0` carrying two players. -/
def reqC1 : Request :=
  { Request.zero with
      type := "GET_CHUNK", chunkID := cid0,
      callerIP := "172.16.118.112:9000", playerCount := 2 }

/-- C1 scenario: the owner answers with one player. -/
def resC1 : Response := { Response.zero with success := true, playerCount := 1 }

/-- C5 scenario: a `PEER_CHUNK` request for a chunk the registry has never
seen. -/
def reqC5 : Request :=
  { Request.zero with
      type := "GET_CHUNK", chunkID := cid0,
      callerIP := "172.16.118.120:9000", playerCount := 1 }

/-- C6 scenario: a `/sentchunk` notification for a fresh chunk. -/
def reqC6 : Request :=
  { Request.zero with chunkID := cid0, callerIP := "172.16.118.120:9000" }

/-- C3 scenario: a player whose record still points at the second server. -/
def playerP1 : Player :=
  { Player.zero with id := "p1", serverIP := "172.16.118.120:9000" }

/-- C3 scenario: a locally cached chunk not owned by this server. -/
def chunkC3 : Chunk :=
  { idx := 0, idy := 0, serverIP := "172.16.118.120:9000", data := "d",
    playerList := [playerP1], isDirty := false, cells := [] }

/-- C3 scenario: server state holding `chunkC3` under `cid0`. -/
def stC3 : ServerState :=
  { zoneMap := upd zmEmpty cid0 chunkC3, players := fun _ => none,
    playerMap := fun _ => none }

/-- C3 scenario: the `GET_DATA` request for `cid0`. -/
def reqC3 : Request :=
  { Request.zero with type := "GET_DATA", chunkID := cid0, player := playerP1 }

/-- C3 scenario: central's reply naming the third server as owner. -/
def centralC3 : Response :=
  { Response.zero with success := true, message := "172.16.118.112:9000" }

/-- C4 scenario: a player whose `server_ip` is the second server. -/
def playerC4 : Player :=
  { Player.zero with id := "p2", serverIP := "172.16.118.120:9000" }

/-- C4 scenario: a chunk this server owns, holding `playerC4`. -/
def chunkC4 : Chunk :=
  { Chunk.zero with serverIP := serverIP, playerList := [playerC4] }

/-- C4 scenario: chunk store holding `chunkC4` under `cid0`. -/
def zmC4 : ZoneMap := upd zmEmpty cid0 chunkC4

/-- C4 scenario: a `FROM_CENTRAL` request with equal load (1 caller player
against 1 local player), which makes the handler yield. -/
def reqC4 : Request :=
  { Request.zero with
      type := "FROM_CENTRAL", chunkID := cid0,
      callerIP := "172.16.118.112:9000", playerCount := 1 }

/-- C7 scenario: two cubes with distinct ids. -/
def cubeK1 : Cube := { Cube.zero with id := "k1", x := 3, z := 5 }

/-- C7 scenario: the second cube. -/
def cubeK2 : Cube := { Cube.zero with id := "k2", x := 4, z := 6, height := 1 }

/-- C7 scenario: a chunk holding both cubes. -/
def chunkC7 : Chunk := { Chunk.zero with serverIP := serverIP, cells := [cubeK1, cubeK2] }

/-- C7 scenario: chunk store holding `chunkC7` under `cid0`. -/
def zmC7 : ZoneMap := upd zmEmpty cid0 chunkC7

/-- C7 scenario: the `DLT_CUBE` request naming `"k1"`. -/
def reqC7 : Request :=
  { Request.zero with type := "DLT_CUBE", chunkID := cid0, cubeID := "k1" }

/-- C9 scenario: a locally present chunk with one player and one cube. -/
def chunkC9 : Chunk :=
  { Chunk.zero with
      serverIP := serverIP, data := "d", playerList := [playerP1],
      cells := [cubeK1] }

/-- C9 scenario: chunk store holding `chunkC9` under `cid0`. -/
def zmC9 : ZoneMap := upd zmEmpty cid0 chunkC9

/-- C9 scenario: a `MERGE` request whose chunk carries one player and a cube
(the cube must be discarded by the merge). -/
def reqC9 : Request :=
  { Request.zero with
      type := "MERGE", chunkID := cid0,
      chunk := { Chunk.zero with
                   playerList := [playerC4], cells := [cubeK2],
                   serverIP := "172.16.118.112:9000", isDirty := true, data := "x" } }

/-! ## Map-update lemmas -/

theorem upd_same {α : Type} [DecidableEq α] {β : Type} (m : α → Option β) (k : α) (v : β) :
    upd m k v k = some v := by
  simp [upd]

theorem upd_other {α : Type} [DecidableEq α] {β : Type} (m : α → Option β) (k k' : α) (v : β)
    (h : k' ≠ k) : upd m k v k' = m k' := by
  simp [upd, h]

/-- Every branch of `handlePeerChunk` leaves the registry entry as it was or
writes the caller's IP into it. -/
theorem handlePeerChunk_zone_cases (zone : Zone) (req : Request) (peer : PeerOutcome)
    (c : ChunkID) :
    (handlePeerChunk zone req peer).1 c = zone c ∨
    (handlePeerChunk zone req peer).1 c = some req.callerIP := by
  by_cases hc : c = req.chunkID
  · subst hc
    unfold handlePeerChunk
    split
    · exact Or.inl rfl
    · split
      · exact Or.inr (upd_same _ _ _)
      · split
        · exact Or.inl rfl
        · split
          · exact Or.inr (upd_same _ _ _)
          · exact Or.inl rfl
        · split
          · exact Or.inr (upd_same _ _ _)
          · exact Or.inl rfl
  · left
    unfold handlePeerChunk
    split
    · rfl
    · split
      · exact upd_other _ _ _ _ hc
      · split
        · rfl
        · split
          · exact upd_other _ _ _ _ hc
          · rfl
        · split
          · exact upd_other _ _ _ _ hc
          · rfl

/-! ## Central coordinator claims -/

/-- C1: for a `PEER_CHUNK` request whose chunk is registered and whose owner
answers with its player count, the central rewrites the registry entry to the
caller and names the caller as owner exactly when the owner's count is
strictly below the caller's; otherwise it performs no write and the reply
names the existing owner. -/
theorem peerChunk_transfer_iff_strict (zone : Zone) (req : Request) (owner : String)
    (res : Response) (hOwner : zone req.chunkID = some owner)
    (hCaller : req.callerIP ≠ "") :
    (res.playerCount < req.playerCount →
      (handlePeerChunk zone req (.ok res)).1 req.chunkID = some req.callerIP ∧
      (handlePeerChunk zone req (.ok res)).2 =
        .reply { Response.zero with
                   success := true, message := req.callerIP, newIP := req.callerIP,
                   chunk := res.chunk }) ∧
    (¬ res.playerCount < req.playerCount →
      (handlePeerChunk zone req (.ok res)).1 = zone ∧
      (handlePeerChunk zone req (.ok res)).2 =
        .reply { Response.zero with
                   success := true, message := owner, newIP := owner }) := by
  constructor
  · intro hlt
    simp only [handlePeerChunk, if_neg hCaller, hOwner, if_pos hlt]
    simp [upd]
  · intro hge
    simp only [handlePeerChunk, if_neg hCaller, hOwner, if_neg hge]
    simp

/-- Witness for C1: with owner load 1 against caller load 2 the registry entry
moves to the caller. -/
theorem peerChunk_transfer_iff_strict_witness :
    (handlePeerChunk zoneC1 reqC1 (.ok resC1)).1 reqC1.chunkID = some reqC1.callerIP :=
  ((peerChunk_transfer_iff_strict zoneC1 reqC1 "172.16.118.120:9000" resC1
      (by decide) (by decide)).1 (by decide)).1

/-- C5 (amended): a `PEER_CHUNK` request for an unregistered chunk installs
the caller as owner and answers the zero response with `success = false`;
the reply's `message` and `new_ip` are empty, so the caller's IP is not
echoed back as an owner value. -/
theorem peerChunk_absent_installs_caller (zone : Zone) (req : Request) (peer : PeerOutcome)
    (hNone : zone req.chunkID = none) (hCaller : req.callerIP ≠ "") :
    (handlePeerChunk zone req peer).1 req.chunkID = some req.callerIP ∧
    (handlePeerChunk zone req peer).2 = .reply { Response.zero with success := false } ∧
    ({ Response.zero with success := false } : Response).message = "" ∧
    ({ Response.zero with success := false } : Response).newIP = "" := by
  simp only [handlePeerChunk, if_neg hCaller, hNone]
  simp [upd, Response.zero]

/-- Witness for C5's amended claim at a concrete empty registry. -/
theorem peerChunk_absent_installs_caller_witness :
    (handlePeerChunk zoneEmpty reqC5 .readError).1 reqC5.chunkID = some reqC5.callerIP :=
  (peerChunk_absent_installs_caller zoneEmpty reqC5 .readError (by decide) (by decide)).1

/-- Counterexample for C5 as stated: on a miss the registry is updated to the
caller, but the reply carries the caller's IP in no field — `message` and
`new_ip` are both empty, not the caller's IP. -/
theorem peerChunk_absent_reply_lacks_owner :
    (handlePeerChunk zoneEmpty reqC5 .readError).1 reqC5.chunkID = some reqC5.callerIP ∧
    (handlePeerChunk zoneEmpty reqC5 .readError).2 =
      .reply { Response.zero with success := false } ∧
    ({ Response.zero with success := false } : Response).message ≠ reqC5.callerIP ∧
    ({ Response.zero with success := false } : Response).newIP ≠ reqC5.callerIP := by
  exact ⟨by decide, by decide, by decide, by decide⟩

/-- C6 (amended): one central call changes a registry entry only to the
calling server's IP — never to a third value — and only a `PEER_CHUNK`
(`/chunk`, `/peer_chunk`) or a `SENT_CHUNK` (`/sentchunk`) call does so. -/
theorem centralStep_writes_only_caller (zone : Zone) (call : CentralCall) (c : ChunkID) :
    centralStep zone call c = zone c ∨
    (centralStep zone call c = some call.callerIP ∧
      (call.isPeerChunk = true ∨ call.isSentChunk = true)) := by
  cases call with
  | join req => exact Or.inl rfl
  | peerChunk req peer =>
      rcases handlePeerChunk_zone_cases zone req peer c with h | h
      · exact Or.inl h
      · exact Or.inr ⟨h, Or.inl rfl⟩
  | sentChunk req =>
      by_cases hc : c = req.chunkID
      · subst hc
        exact Or.inr ⟨upd_same _ _ _, Or.inr rfl⟩
      · exact Or.inl (upd_other _ _ _ _ hc)

/-- Counterexample for C6 as stated: a `/sentchunk` call rewrites the
registry entry for `cid0` although it is not a `PEER_CHUNK` call. -/
theorem sentChunk_rewrite_not_peerChunk :
    centralStep zoneEmpty (.sentChunk reqC6) cid0 ≠ zoneEmpty cid0 ∧
    (CentralCall.sentChunk reqC6).isPeerChunk = false := by
  exact ⟨by decide, rfl⟩

/-- C8: the join assignment is a function of the player id alone — two
requests with the same id get the same server — and a join leaves the
central registry untouched. -/
theorem join_deterministic_stateless (zone : Zone) (r1 r2 : PlayerJoinRequest)
    (h : r1.playerID = r2.playerID) :
    handleJoin r1 = handleJoin r2 ∧
    (handleJoin r1).message = randomServer r1.playerID ∧
    centralStep zone (.join r1) = zone := by
  refine ⟨by simp [handleJoin, h], rfl, rfl⟩

/-- Witness for C8: two joins of player `"2"` from different positions get
the same assignment. -/
theorem join_deterministic_stateless_witness :
    handleJoin ⟨"2", 0, 0⟩ = handleJoin ⟨"2", 5, 7⟩ :=
  (join_deterministic_stateless zoneEmpty ⟨"2", 0, 0⟩ ⟨"2", 5, 7⟩ rfl).1

/-! ## Game server claims -/

/-- C2: `FROM_CENTRAL` with `my_count = len(local chunk's player_list)`
(0 on a miss): when `my_count <= caller_player_count` the handler stores the
chunk back with `server_ip = caller_ip` and `is_dirty`, sends one `MERGE`
carrying that chunk to the caller, and replies with the chunk and
`player_count = my_count`; otherwise it changes nothing and replies with the
chunk and `player_count = my_count`. -/
theorem fromCentral_yield_rule (zm : ZoneMap) (req : Request) :
    ((((zm req.chunkID).getD Chunk.zero).playerList.length : Int) ≤ req.playerCount →
      (handleCentralPeerReq zm req).1 req.chunkID =
        some { (zm req.chunkID).getD Chunk.zero with
                 serverIP := req.callerIP, isDirty := true } ∧
      (handleCentralPeerReq zm req).2.1 =
        { Response.zero with
            success := true,
            chunk := { (zm req.chunkID).getD Chunk.zero with
                         serverIP := req.callerIP, isDirty := true },
            playerCount := (((zm req.chunkID).getD Chunk.zero).playerList.length : Int) } ∧
      (handleCentralPeerReq zm req).2.2 =
        [(req.callerIP,
          { Request.zero with
              type := "MERGE", chunkID := req.chunkID,
              chunk := { (zm req.chunkID).getD Chunk.zero with
                           serverIP := req.callerIP, isDirty := true } })]) ∧
    (req.playerCount < (((zm req.chunkID).getD Chunk.zero).playerList.length : Int) →
      (handleCentralPeerReq zm req).1 = zm ∧
      (handleCentralPeerReq zm req).2.1 =
        { Response.zero with
            success := true,
            playerCount := (((zm req.chunkID).getD Chunk.zero).playerList.length : Int),
            chunk := (zm req.chunkID).getD Chunk.zero } ∧
      (handleCentralPeerReq zm req).2.2 = []) := by
  constructor
  · intro h
    simp only [handleCentralPeerReq]
    split
    · exact ⟨upd_same _ _ _, rfl, rfl⟩
    · omega
  · intro h
    simp only [handleCentralPeerReq]
    split
    · omega
    · exact ⟨rfl, rfl, rfl⟩

/-- Witness for C2's yield branch: equal load (1 against 1) makes the handler
yield and emit one `MERGE` to the caller. -/
theorem fromCentral_yield_rule_witness :
    (handleCentralPeerReq zmC4 reqC4).1 reqC4.chunkID =
      some { (zmC4 reqC4.chunkID).getD Chunk.zero with
               serverIP := reqC4.callerIP, isDirty := true } :=
  ((fromCentral_yield_rule zmC4 reqC4).1 (by decide)).1

/-- C9: a `MERGE` whose chunk id is already present only extends the local
chunk's `player_list` by the incoming entries, in order; `cells`, `data`,
`server_ip` and `is_dirty` keep their values and the incoming cells are
dropped. -/
theorem merge_present_appends_players_only (zm : ZoneMap) (req : Request) (chunk : Chunk)
    (h : zm req.chunkID = some chunk) :
    (handleMergeChunk zm req).1 req.chunkID =
      some { chunk with playerList := chunk.playerList ++ req.chunk.playerList } ∧
    (handleMergeChunk zm req).2 =
      { Response.zero with success := true, message := "Merged Chunk" } := by
  simp only [handleMergeChunk, h]
  exact ⟨upd_same _ _ _, trivial⟩

/-- Witness for C9: merging a chunk that carries one player and one cube into
a present chunk appends the player and drops the cube. -/
theorem merge_present_appends_players_only_witness :
    (handleMergeChunk zmC9 reqC9).1 reqC9.chunkID =
      some { chunkC9 with playerList := chunkC9.playerList ++ reqC9.chunk.playerList } :=
  (merge_present_appends_players_only zmC9 reqC9 chunkC9 (by decide)).1

/-- C10: `ADD_CUBE` always replies `success = true` and stores back, under
the request's chunk id, the looked-up chunk (the zero-valued chunk on a miss)
with the cube appended to `cells` and `is_dirty` set. -/
theorem addCube_appends_cube_dirty (zm : ZoneMap) (req : Request) :
    (handleAddCube zm req).2.success = true ∧
    (handleAddCube zm req).1 req.chunkID =
      some { (zm req.chunkID).getD Chunk.zero with
               cells := ((zm req.chunkID).getD Chunk.zero).cells ++ [req.cube],
               isDirty := true } ∧
    (zm req.chunkID = none →
      (handleAddCube zm req).1 req.chunkID =
        some { Chunk.zero with cells := [req.cube], isDirty := true }) := by
  refine ⟨rfl, upd_same _ _ _, ?_⟩
  intro h
  simp only [handleAddCube, h]
  simp [upd, Chunk.zero]

/-- C3: at a state where this server caches the chunk, does not own it, and
central names another server as owner, the handler's trailing
`zone_map[chunk_id] = res.Chunk` stores the zero-valued chunk, so the
retained entry has an empty `server_ip` (not the new owner) and
`is_dirty = false` — the dirty read-hint written earlier in the branch is
clobbered. -/
theorem getData_handoff_clobbers_cache :
    (handleGetData stC3 reqC3 centralC3).1.zoneMap cid0 = some Chunk.zero ∧
    Chunk.zero.serverIP = "" ∧
    Chunk.zero.serverIP ≠ centralC3.message ∧
    Chunk.zero.isDirty = false ∧
    (handleGetData stC3 reqC3 centralC3).2.1.message = centralC3.message := by
  exact ⟨by decide, rfl, by decide, rfl, by decide⟩

/-- C4: on the `FROM_CENTRAL` yield path the chunk's `server_ip` moves to the
caller, but each player in `player_list` keeps its old `server_ip`: the
source's range loop assigns into a per-iteration copy.  Concretely, after
yielding `cid0` to `172.16.118.112:9000` the stored chunk's only player still
carries `172.16.118.120:9000`. -/
theorem fromCentral_players_keep_old_serverIP :
    (handleCentralPeerReq zmC4 reqC4).1 cid0 =
      some { chunkC4 with serverIP := reqC4.callerIP, isDirty := true } ∧
    ({ chunkC4 with serverIP := reqC4.callerIP, isDirty := true } : Chunk).playerList
      = [playerC4] ∧
    playerC4.serverIP = "172.16.118.120:9000" ∧
    reqC4.callerIP = "172.16.118.112:9000" ∧
    playerC4.serverIP ≠ reqC4.callerIP := by
  exact ⟨by decide, rfl, rfl, rfl, by decide⟩

/-! ## Swap-remove lemmas for C7 -/

/-- When the `handleDltCube` search loop finds an index, that index is in
range and its cube carries the searched id. -/
theorem firstMatchIdx_spec (target : String) :
    ∀ (l : List Cube) (i : Nat), firstMatchIdx l target = some i →
      ∃ h : i < l.length, l[i].id = target := by
  intro l
  induction l with
  | nil => intro i h; simp [firstMatchIdx] at h
  | cons c rest ih =>
      intro i h
      simp only [firstMatchIdx] at h
      by_cases hc : c.id = target
      · rw [if_pos hc] at h
        cases h
        exact ⟨Nat.succ_pos _, hc⟩
      · rw [if_neg hc] at h
        cases hr : firstMatchIdx rest target with
        | none => rw [hr] at h; simp at h
        | some j =>
            rw [hr] at h
            simp only [Option.map_some'] at h
            obtain ⟨hj, hid⟩ := ih j hr
            cases h
            exact ⟨Nat.succ_lt_succ hj, hid⟩

/-- When some cube of the list carries the searched id, the search loop finds
an index. -/
theorem firstMatchIdx_isSome (target : String) :
    ∀ l : List Cube, (∃ c ∈ l, c.id = target) → ∃ i, firstMatchIdx l target = some i := by
  intro l
  induction l with
  | nil => rintro ⟨c, hc, _⟩; simp at hc
  | cons c rest ih =>
      rintro ⟨d, hd, hdt⟩
      by_cases hc : c.id = target
      · exact ⟨0, by simp [firstMatchIdx, hc]⟩
      · rcases List.mem_cons.mp hd with hd | hd
        · exact absurd (hd ▸ hdt) hc
        · obtain ⟨j, hj⟩ := ih ⟨d, hd, hdt⟩
          exact ⟨j + 1, by simp [firstMatchIdx, hc, hj]⟩

/-- Swap-removing a valid index shortens the list by one. -/
theorem length_deleteFromList (s : List Cube) (i : Nat) :
    (deleteFromList s i).length = s.length - 1 := by
  simp [deleteFromList, List.length_take, List.length_set]

/-- Swap-removing the only index that carries the target id leaves no element
with that id: the slot is refilled by the last element (whose id differs) and
the last slot is dropped. -/
theorem deleteFromList_no_target (s : List Cube) (t : String) (i : Nat)
    (hi : i < s.length) (_hit : s[i].id = t)
    (huniq : ∀ j (hj : j < s.length), s[j].id = t → j = i) :
    ∀ x ∈ deleteFromList s i, x.id ≠ t := by
  intro x hx
  rw [List.mem_iff_getElem] at hx
  obtain ⟨j, hj, hxj⟩ := hx
  have hjlen : j < s.length - 1 := by
    have := length_deleteFromList s i
    omega
  simp only [deleteFromList, List.getElem_take, List.getElem_set] at hxj
  rw [← hxj]
  split
  · rename_i hij
    rw [List.getD_eq_getElem s Cube.zero (show s.length - 1 < s.length by omega)]
    intro hid
    have hlast := huniq (s.length - 1) (by omega) hid
    omega
  · rename_i hij
    intro hid
    exact hij ((huniq j (by omega) hid).symm)

/-- C7: deleting a cube id that occurs in the chunk's cells, when cube ids
are unique within the chunk, removes exactly that cube: no cell with the id
remains, the length drops by one, the chunk is dirty, and the reply has
`success = true`. -/
theorem dltCube_removes_unique_cube (zm : ZoneMap) (req : Request)
    (huniq : ((((zm req.chunkID).getD Chunk.zero).cells).map Cube.id).Nodup)
    (hmem : ∃ c ∈ ((zm req.chunkID).getD Chunk.zero).cells, c.id = req.cubeID) :
    ∃ ch : Chunk,
      (handleDltCube zm req).1 req.chunkID = some ch ∧
      (∀ x ∈ ch.cells, x.id ≠ req.cubeID) ∧
      ch.cells.length + 1 = ((zm req.chunkID).getD Chunk.zero).cells.length ∧
      ch.isDirty = true ∧
      (handleDltCube zm req).2.success = true := by
  obtain ⟨i, hfmi⟩ := firstMatchIdx_isSome req.cubeID _ hmem
  obtain ⟨hi, hit⟩ := firstMatchIdx_spec req.cubeID _ i hfmi
  have huniq' : ∀ j (hj : j < ((zm req.chunkID).getD Chunk.zero).cells.length),
      (((zm req.chunkID).getD Chunk.zero).cells)[j].id = req.cubeID → j = i := by
    intro j hj hid
    have hj2 : j < ((((zm req.chunkID).getD Chunk.zero).cells).map Cube.id).length := by
      rw [List.length_map]; exact hj
    have hi2 : i < ((((zm req.chunkID).getD Chunk.zero).cells).map Cube.id).length := by
      rw [List.length_map]; exact hi
    have hmap : ((((zm req.chunkID).getD Chunk.zero).cells).map Cube.id)[j] =
        ((((zm req.chunkID).getD Chunk.zero).cells).map Cube.id)[i] := by
      rw [List.getElem_map, List.getElem_map, hid, hit]
    exact (List.Nodup.getElem_inj_iff huniq).mp hmap
  refine ⟨{ (zm req.chunkID).getD Chunk.zero with
              cells := deleteFromList ((zm req.chunkID).getD Chunk.zero).cells i,
              isDirty := true }, ?_, ?_, ?_, rfl, rfl⟩
  · simp only [handleDltCube, hfmi]
    exact upd_same _ _ _
  · exact deleteFromList_no_target _ req.cubeID i hi hit huniq'
  · have hlen := length_deleteFromList ((zm req.chunkID).getD Chunk.zero).cells i
    show (deleteFromList ((zm req.chunkID).getD Chunk.zero).cells i).length + 1 =
      ((zm req.chunkID).getD Chunk.zero).cells.length
    omega

/-- Witness for C7: deleting `"k1"` from a chunk holding cubes `"k1"` and
`"k2"` leaves a chunk whose cells lack `"k1"`. -/
theorem dltCube_removes_unique_cube_witness :
    ∃ ch : Chunk,
      (handleDltCube zmC7 reqC7).1 reqC7.chunkID = some ch ∧
      (∀ x ∈ ch.cells, x.id ≠ reqC7.cubeID) ∧
      ch.cells.length + 1 = ((zmC7 reqC7.chunkID).getD Chunk.zero).cells.length ∧
      ch.isDirty = true ∧
      (handleDltCube zmC7 reqC7).2.success = true :=
  dltCube_removes_unique_cube zmC7 reqC7 (by decide) (by decide)
